import Mathlib

/-!
Shallow embedding of the Cogni chatbot recommendation backend
(`src/backend/main.py`) and proofs of its specification's claims.

The backend is a single FastAPI handler around four pure helpers:
`determine_recommendation`, `calculate_price`, `generate_streamlit_url`
(which percent-encodes its query parameters with `urllib.parse.quote`),
`get_features`, plus a message formatter `generate_sales_message`.
-/

namespace Cogni

/-- Tier/seat decision rules of `determine_recommendation` in
`src/backend/main.py` (lines 53–82): an ordered if/elif chain on
`org_type`, with nested `team_size` cases, then two fallthrough rules on
`specializations`/`services`, then a default.  `client_volume` is a
parameter of the Python function but is never read by its body. -/
def determine_recommendation (org_type team_size client_volume : String)
    (specializations services : List String) : String × Nat :=
  if org_type = "Insurance Provider / EAS" then
    ("Enterprise Access (Insurance & EAS)", 20)
  else if org_type = "Mental Health Practitioner – Private Practice" then
    if team_size ∈ ["1 (Solo practice)", "2–5 providers"] then
      ("Fresh Start", 4)
    else if team_size = "6–15 providers" then
      ("Practice Plus", 8)
    else
      ("Community Access", 16)
  else if org_type = "Mental Health or Healthcare Provider – Public System" then
    if team_size ∈ ["16–50 providers", "51+ providers"] then
      ("Enterprise Care (Public Health)", 20)
    else
      ("Practice Plus", 6)
  else if org_type = "Home Care or Specialized Residential Services" then
    ("Community Access", 20)
  else if "Trauma-informed care" ∈ specializations then
    ("Practice Plus", 8)
  else if "Group therapy or workshops" ∈ services ∧
      team_size ∈ ["16–50 providers", "51+ providers"] then
    ("Community Access", 20)
  else
    ("Community Access", 10)

/-- The static per-seat pricing dict from `calculate_price`, as an
association list in the dict's insertion order. -/
def pricing : List (String × Nat) :=
  [("Fresh Start", 49),
   ("Practice Plus", 89),
   ("Community Access", 49),
   ("Enterprise Care (Public Health)", 199),
   ("Enterprise Access (Insurance & EAS)", 199)]

/-- `calculate_price` in `src/backend/main.py`:
`seats * pricing.get(package, 49)`. -/
def calculate_price (package : String) (seats : Nat) : Nat :=
  seats * ((pricing.lookup package).getD 49)

/-- The static feature dict from `get_features`, as an association list in
the dict's insertion order. -/
def features_table : List (String × List String) :=
  [("Fresh Start",
    ["Basic self-guided tools",
     "AI self-assessment",
     "1 group session/month",
     "1 report template"]),
   ("Practice Plus",
    ["Full AI suite",
     "Group modules",
     "2 sessions/month",
     "Custom reports",
     "Provider dashboard"]),
   ("Community Access",
    ["Multilingual AI tools",
     "Scalable group support",
     "Onboarding support",
     "Usage dashboard",
     "Volume discounts for 500+ users"]),
   ("Enterprise Care (Public Health)",
    ["Full AI triage",
     "Post-session care",
     "Real-time analytics",
     "API access",
     "Client monitoring & support",
     "Unlimited video, audio, and text-based monitoring tools"]),
   ("Enterprise Access (Insurance & EAS)",
    ["API integration",
     "Branded self-assessments",
     "Usage analytics",
     "Employer group modules",
     "Outcome dashboards",
     "Unlimited monitoring tools"])]

/-- `get_features` in `src/backend/main.py`: `features.get(package, [])`. -/
def get_features (package : String) : List String :=
  (features_table.lookup package).getD []

/-- UTF-8 encoding of one scalar value, byte values as `Nat`.  This is the
encoding `str.encode("utf-8")` applies to each code point of a Python
string (Python `str` holds no surrogates, like Lean's `Char`). -/
def utf8EncodeChar (c : Char) : List Nat :=
  let v := c.toNat
  if v < 0x80 then
    [v]
  else if v < 0x800 then
    [0xC0 + v / 0x40, 0x80 + v % 0x40]
  else if v < 0x10000 then
    [0xE0 + v / 0x1000, 0x80 + v / 0x40 % 0x40, 0x80 + v % 0x40]
  else
    [0xF0 + v / 0x40000, 0x80 + v / 0x1000 % 0x40, 0x80 + v / 0x40 % 0x40,
     0x80 + v % 0x40]

/-- The UTF-8 bytes of a string, i.e. Python's `s.encode("utf-8")`. -/
def strBytes (s : String) : List Nat :=
  s.data.flatMap utf8EncodeChar

/-- The bytes `urllib.parse.quote` leaves unencoded with its default
`safe="/"`: ASCII letters, digits, `_`, `.`, `-`, `~`, and `/`. -/
def IsQuoteSafe (b : Nat) : Prop :=
  (0x41 ≤ b ∧ b ≤ 0x5A) ∨ (0x61 ≤ b ∧ b ≤ 0x7A) ∨ (0x30 ≤ b ∧ b ≤ 0x39) ∨
    b = 0x5F ∨ b = 0x2E ∨ b = 0x2D ∨ b = 0x7E ∨ b = 0x2F

instance (b : Nat) : Decidable (IsQuoteSafe b) := by
  unfold IsQuoteSafe
  infer_instance

/-- Upper-case hexadecimal digit, as used by `quote`'s `%XX` escapes. -/
def hexUpper (n : Nat) : Char :=
  if n < 10 then Char.ofNat (0x30 + n) else Char.ofNat (0x37 + n)

/-- How `urllib.parse.quote` renders one byte: the literal character when
safe, a `%XX` escape otherwise. -/
def quoteByte (b : Nat) : List Char :=
  if IsQuoteSafe b then [Char.ofNat b]
  else ['%', hexUpper (b / 16), hexUpper (b % 16)]

/-- `urllib.parse.quote` over a byte sequence. -/
def quoteChars (bs : List Nat) : List Char :=
  bs.flatMap quoteByte

/-- `urllib.parse.quote(s)` with the default `safe="/"`: percent-encode
the UTF-8 bytes of `s`. -/
def quote (s : String) : String :=
  ⟨quoteChars (strBytes s)⟩

/-- The fixed `base_url` of `generate_streamlit_url`. -/
def base_url : String :=
  "https://cogni-recommendation-chuiv5x8slzxktq3mzbb5p.streamlit.app"

/-- `generate_streamlit_url` in `src/backend/main.py`: the dict
`{tier: package, seats: seats, utm_source: "chatbot"}` iterates in
insertion order, so the joined query is written out here with its `&`
separators; each value goes through `quote(str(v))`. -/
def generate_streamlit_url (package : String) (seats : Nat) : String :=
  base_url ++ "/?" ++ "tier=" ++ quote package ++ "&" ++ "seats=" ++
    quote (toString seats) ++ "&" ++ "utm_source=" ++ quote "chatbot"

/-- A FastAPI `HTTPException`: a status code and a detail string. -/
structure HTTPException where
  status_code : Nat
  detail : String
deriving DecidableEq

/-- The pydantic request model `RecommendationRequest`, with its declared
defaults for the optional list fields. -/
structure RecommendationRequest where
  org_type : String
  team_size : String
  team_roles : List String := []
  client_volume : String
  services : List String := []
  specializations : List String := []
deriving DecidableEq

/-- The JSON object returned by `get_recommendation` on success. -/
structure SuccessBody where
  recommended_package : String
  recommended_seats : Nat
  estimated_pricing : String
  key_features : List String
  next_steps : String
  sales_message : String
deriving DecidableEq

/-- `generate_sales_message` in `src/backend/main.py`: the f-string
template with its literal newlines and indentation written as escapes;
`features` is the newline-joined `- `-bulleted feature list. -/
def generate_sales_message (package : String) (seats price : Nat)
    (data : RecommendationRequest) : String :=
  let features := String.intercalate "\n"
    ((get_features package).map (fun f => "- " ++ f))
  "\n    **Recommended Package:** " ++ package ++
  "\n\n    Thank you for your details! Based on your " ++ data.org_type ++
  " organization with " ++ data.team_size ++ " team and " ++
  data.client_volume ++ " client volume, we recommend:\n\n    **Package:** " ++
  package ++ "  \n    **Seats:** " ++ toString seats ++
  "  \n    **Price:** $" ++ toString price ++
  "  \n\n    **Key Features:**  \n    " ++ features ++
  "\n\n    [📊 Click here for your detailed report](" ++
  generate_streamlit_url package seats ++ ")\n    "

/-- The `try:` block of `get_recommendation` (lines 20–46): the explicit
truthiness check on the three required fields (a Python string is falsy
exactly when empty) raising `HTTPException(422)`, then the success body.
Raising is modelled as `Except.error`. -/
def get_recommendation_try (data : RecommendationRequest) :
    Except HTTPException SuccessBody :=
  if data.org_type = "" ∨ data.team_size = "" ∨ data.client_volume = "" then
    .error ⟨422, "Missing required fields"⟩
  else
    let pr := determine_recommendation data.org_type data.team_size
      data.client_volume data.specializations data.services
    let price := calculate_price pr.1 pr.2
    .ok { recommended_package := pr.1,
          recommended_seats := pr.2,
          estimated_pricing := "$" ++ toString price,
          key_features := get_features pr.1,
          next_steps := generate_streamlit_url pr.1 pr.2,
          sales_message := generate_sales_message pr.1 pr.2 price data }

/-- starlette's `HTTPException.__str__`, which `str(e)` invokes in the
handler's `except` clause: `f"{self.status_code}: {self.detail}"`. -/
def strOfHTTPException (e : HTTPException) : String :=
  toString e.status_code ++ ": " ++ e.detail

/-- `get_recommendation` in `src/backend/main.py` (lines 19–51): the
blanket `except Exception as e` catches every exception the `try:` block
raises — including the `HTTPException(status_code=422)` of its own
validation check, since FastAPI's `HTTPException` subclasses `Exception`
— and re-raises `HTTPException(status_code=500, detail=str(e))`. -/
def get_recommendation (data : RecommendationRequest) :
    Except HTTPException SuccessBody :=
  match get_recommendation_try data with
  | .ok body => .ok body
  | .error e => .error ⟨500, strOfHTTPException e⟩

/-- A raw JSON request body: `none` marks a field absent from the JSON. -/
structure RawRequest where
  org_type : Option String
  team_size : Option String
  team_roles : Option (List String)
  client_volume : Option String
  services : Option (List String)
  specializations : Option (List String)

/-- Modelled from the spec: the FastAPI/pydantic request-validation layer
is outside `src/backend/main.py`; per the spec it rejects a body missing
any of the required fields `org_type`, `team_size`, `client_volume` with
a 422 response before the handler runs, and fills the declared defaults
for the optional list fields. -/
def parse_request (r : RawRequest) : Except HTTPException RecommendationRequest :=
  match r.org_type, r.team_size, r.client_volume with
  | some o, some t, some cv =>
      .ok { org_type := o, team_size := t,
            team_roles := r.team_roles.getD [],
            client_volume := cv,
            services := r.services.getD [],
            specializations := r.specializations.getD [] }
  | _, _, _ => .error ⟨422, "Unprocessable Entity"⟩

/-- The full POST `/getRecommendation` endpoint: request validation, then
the handler. -/
def post_getRecommendation (r : RawRequest) : Except HTTPException SuccessBody :=
  (parse_request r).bind get_recommendation

/-- Value of an upper- or lower-case hexadecimal digit character. -/
def hexVal (c : Char) : Option Nat :=
  if 0x30 ≤ c.toNat ∧ c.toNat ≤ 0x39 then some (c.toNat - 0x30)
  else if 0x41 ≤ c.toNat ∧ c.toNat ≤ 0x46 then some (c.toNat - 0x37)
  else if 0x61 ≤ c.toNat ∧ c.toNat ≤ 0x66 then some (c.toNat - 0x57)
  else none

/-- One step of percent-decoding: `%XX` yields the byte `XX` and consumes
three characters, any other character stands for its own code point and
consumes one. -/
def pctHead (cs : List Char) : Option (Nat × List Char) :=
  match cs with
  | [] => none
  | c :: rest =>
    if c = '%' then
      match rest with
      | h :: l :: rest2 =>
        match hexVal h, hexVal l with
        | some hv, some lv => some (hv * 16 + lv, rest2)
        | _, _ => none
      | _ => none
    else some (c.toNat, rest)

/-- Percent-decoding of a character sequence back to bytes, driven by a
step counter (each step consumes at least one character, so `cs.length`
steps always suffice). -/
def pctDecodeLoop : Nat → List Char → Option (List Nat)
  | _, [] => some []
  | 0, _ :: _ => none
  | fuel + 1, c :: cs =>
    match pctHead (c :: cs) with
    | some (b, rest) => (pctDecodeLoop fuel rest).map (fun bs => b :: bs)
    | none => none

/-- Percent-decoding of a character sequence back to bytes. -/
def pctDecodeBytes (cs : List Char) : Option (List Nat) :=
  pctDecodeLoop cs.length cs

/-- Read one UTF-8 continuation byte, shifting it into the accumulated
scalar value. -/
def utf8Cont1 (acc : Nat) : List Nat → Option (Nat × List Nat)
  | b :: bs =>
    if 0x80 ≤ b ∧ b < 0xC0 then some (acc * 0x40 + (b - 0x80), bs) else none
  | [] => none

/-- Read two UTF-8 continuation bytes. -/
def utf8Cont2 (acc : Nat) : List Nat → Option (Nat × List Nat)
  | b :: bs =>
    if 0x80 ≤ b ∧ b < 0xC0 then utf8Cont1 (acc * 0x40 + (b - 0x80)) bs else none
  | [] => none

/-- Read three UTF-8 continuation bytes. -/
def utf8Cont3 (acc : Nat) : List Nat → Option (Nat × List Nat)
  | b :: bs =>
    if 0x80 ≤ b ∧ b < 0xC0 then utf8Cont2 (acc * 0x40 + (b - 0x80)) bs else none
  | [] => none

/-- One step of UTF-8 decoding: read one scalar value, dispatching on the
lead byte, and return it with the remaining bytes. -/
def utf8Head : List Nat → Option (Nat × List Nat)
  | [] => none
  | b :: bs =>
    if b < 0x80 then some (b, bs)
    else if b < 0xC0 then none
    else if b < 0xE0 then utf8Cont1 (b - 0xC0) bs
    else if b < 0xF0 then utf8Cont2 (b - 0xE0) bs
    else if b < 0xF8 then utf8Cont3 (b - 0xF0) bs
    else none

/-- UTF-8 decoding of a byte sequence back to characters, driven by a
step counter (each scalar consumes at least one byte, so `bs.length`
steps always suffice). -/
def utf8DecodeLoop : Nat → List Nat → Option (List Char)
  | _, [] => some []
  | 0, _ :: _ => none
  | fuel + 1, b :: bs =>
    match utf8Head (b :: bs) with
    | some (v, rest) => (utf8DecodeLoop fuel rest).map (fun cs => Char.ofNat v :: cs)
    | none => none

/-- UTF-8 decoding of a byte sequence back to characters. -/
def utf8DecodeChars (bs : List Nat) : Option (List Char) :=
  utf8DecodeLoop bs.length bs

/-- Percent-decode a string and UTF-8 decode the resulting bytes. -/
def pctDecodeString (s : String) : Option String :=
  (pctDecodeBytes s.data).bind (fun bs => (utf8DecodeChars bs).map String.mk)

/-- Split a character list on every occurrence of a separator. -/
def splitOnSep (sep : Char) : List Char → List (List Char)
  | [] => [[]]
  | c :: cs =>
    if c = sep then [] :: splitOnSep sep cs
    else
      match splitOnSep sep cs with
      | [] => [[c]]
      | p :: ps => (c :: p) :: ps

/-- The query part of a URL: what follows the first `?`. -/
def queryStringOf (url : List Char) : List Char :=
  (splitOnSep '?' url).getD 1 []

/-- Split one `key=value` query segment at its first `=`. -/
def keyValOf (p : List Char) : List Char × List Char :=
  (p.takeWhile (fun c => c != '='), (p.dropWhile (fun c => c != '=')).drop 1)

/-- The (still percent-encoded) value of a query parameter of a URL. -/
def getParamValue (url : String) (key : String) : Option String :=
  ((((splitOnSep '&' (queryStringOf url.data)).map keyValOf).lookup
    key.data).map String.mk)

end Cogni

namespace Cogni

/-- C1: for each of the four recognized org_type categories,
`determine_recommendation` returns exactly the (tier, seats) pair of
rules 1–4, for every team_size/client_volume/specializations/services:
Insurance → (Enterprise Access, 20); private practice by team_size
buckets; public system by team_size buckets; home care → (Community
Access, 20). -/
theorem determine_recommendation_recognized_orgs
    (team_size client_volume : String) (specializations services : List String) :
    determine_recommendation "Insurance Provider / EAS" team_size client_volume
      specializations services = ("Enterprise Access (Insurance & EAS)", 20)
  ∧ (team_size = "1 (Solo practice)" ∨ team_size = "2–5 providers" →
      determine_recommendation "Mental Health Practitioner – Private Practice"
        team_size client_volume specializations services = ("Fresh Start", 4))
  ∧ (team_size = "6–15 providers" →
      determine_recommendation "Mental Health Practitioner – Private Practice"
        team_size client_volume specializations services = ("Practice Plus", 8))
  ∧ (team_size ≠ "1 (Solo practice)" → team_size ≠ "2–5 providers" →
      team_size ≠ "6–15 providers" →
      determine_recommendation "Mental Health Practitioner – Private Practice"
        team_size client_volume specializations services = ("Community Access", 16))
  ∧ (team_size = "16–50 providers" ∨ team_size = "51+ providers" →
      determine_recommendation "Mental Health or Healthcare Provider – Public System"
        team_size client_volume specializations services
        = ("Enterprise Care (Public Health)", 20))
  ∧ (team_size ≠ "16–50 providers" → team_size ≠ "51+ providers" →
      determine_recommendation "Mental Health or Healthcare Provider – Public System"
        team_size client_volume specializations services = ("Practice Plus", 6))
  ∧ determine_recommendation "Home Care or Specialized Residential Services"
      team_size client_volume specializations services = ("Community Access", 20) := by
  refine ⟨rfl, ?_, ?_, ?_, ?_, ?_, rfl⟩
  · rintro (rfl | rfl) <;> rfl
  · rintro rfl; rfl
  · intro h1 h2 h3
    unfold determine_recommendation
    rw [if_neg (by decide), if_pos rfl, if_neg (by simp [h1, h2]), if_neg h3]
  · rintro (rfl | rfl) <;> rfl
  · intro h1 h2
    unfold determine_recommendation
    rw [if_neg (by decide), if_neg (by decide), if_pos rfl, if_neg (by simp [h1, h2])]

/-- Witness for C1 at concrete inputs. -/
theorem determine_recommendation_recognized_orgs_witness :
    determine_recommendation "Mental Health Practitioner – Private Practice"
      "2–5 providers" "Low" [] [] = ("Fresh Start", 4)
  ∧ determine_recommendation "Mental Health or Healthcare Provider – Public System"
      "51+ providers" "High" [] [] = ("Enterprise Care (Public Health)", 20)
  ∧ determine_recommendation "Mental Health Practitioner – Private Practice"
      "100 providers" "Low" [] [] = ("Community Access", 16) :=
  ⟨(determine_recommendation_recognized_orgs "2–5 providers" "Low" [] []).2.1
      (Or.inr rfl),
   (determine_recommendation_recognized_orgs "51+ providers" "High" [] []).2.2.2.2.1
      (Or.inr rfl),
   (determine_recommendation_recognized_orgs "100 providers" "Low" [] []).2.2.2.1
      (by decide) (by decide) (by decide)⟩

/-- C2: for every org_type outside the four recognized categories,
trauma-informed care in specializations gives (Practice Plus, 8); failing
that, group therapy in services with one of the two largest team_size
buckets gives (Community Access, 20); otherwise (Community Access, 10). -/
theorem determine_recommendation_unrecognized_orgs
    (org_type team_size client_volume : String)
    (specializations services : List String)
    (h : org_type ∉ ["Insurance Provider / EAS",
      "Mental Health Practitioner – Private Practice",
      "Mental Health or Healthcare Provider – Public System",
      "Home Care or Specialized Residential Services"]) :
    ("Trauma-informed care" ∈ specializations →
      determine_recommendation org_type team_size client_volume specializations
        services = ("Practice Plus", 8))
  ∧ ("Trauma-informed care" ∉ specializations →
      "Group therapy or workshops" ∈ services →
      (team_size = "16–50 providers" ∨ team_size = "51+ providers") →
      determine_recommendation org_type team_size client_volume specializations
        services = ("Community Access", 20))
  ∧ ("Trauma-informed care" ∉ specializations →
      ¬("Group therapy or workshops" ∈ services ∧
        (team_size = "16–50 providers" ∨ team_size = "51+ providers")) →
      determine_recommendation org_type team_size client_volume specializations
        services = ("Community Access", 10)) := by
  simp only [List.mem_cons, List.not_mem_nil, or_false, not_or] at h
  refine ⟨?_, ?_, ?_⟩
  · intro h2
    unfold determine_recommendation
    rw [if_neg h.1, if_neg h.2.1, if_neg h.2.2.1, if_neg h.2.2.2, if_pos h2]
  · intro hn hg ht
    unfold determine_recommendation
    rw [if_neg h.1, if_neg h.2.1, if_neg h.2.2.1, if_neg h.2.2.2, if_neg hn,
      if_pos ⟨hg, by simpa using ht⟩]
  · intro hn hgt
    unfold determine_recommendation
    rw [if_neg h.1, if_neg h.2.1, if_neg h.2.2.1, if_neg h.2.2.2, if_neg hn,
      if_neg (by simpa using hgt)]

/-- Witness for C2 at a concrete unrecognized org_type. -/
theorem determine_recommendation_unrecognized_orgs_witness :
    determine_recommendation "Community Organization" "2–5 providers" "Low"
      ["Trauma-informed care"] [] = ("Practice Plus", 8)
  ∧ determine_recommendation "Community Organization" "51+ providers" "Low"
      [] ["Group therapy or workshops"] = ("Community Access", 20)
  ∧ determine_recommendation "Community Organization" "2–5 providers" "Low"
      [] [] = ("Community Access", 10) :=
  ⟨(determine_recommendation_unrecognized_orgs "Community Organization"
      "2–5 providers" "Low" ["Trauma-informed care"] [] (by decide)).1 (by decide),
   (determine_recommendation_unrecognized_orgs "Community Organization"
      "51+ providers" "Low" [] ["Group therapy or workshops"] (by decide)).2.1
      (by decide) (by decide) (Or.inr rfl),
   (determine_recommendation_unrecognized_orgs "Community Organization"
      "2–5 providers" "Low" [] [] (by decide)).2.2 (by decide) (by decide)⟩

/-- C3: the code slip at the failing input.  A body with a genuinely
missing required field is rejected 422 by the validation layer, but a
present-and-empty required field makes the handler's own
`HTTPException(422)` get caught by its blanket `except Exception` and
re-raised as a 500 — not the 422 the claim states. -/
theorem empty_required_field_yields_500 :
    post_getRecommendation
      { org_type := some "Insurance Provider / EAS", team_size := some "",
        team_roles := some [], client_volume := some "High",
        services := some [], specializations := some [] }
      = .error ⟨500, "422: Missing required fields"⟩
  ∧ parse_request
      { org_type := some "Insurance Provider / EAS", team_size := none,
        team_roles := none, client_volume := some "High",
        services := none, specializations := none }
      = .error ⟨422, "Unprocessable Entity"⟩ :=
  ⟨rfl, rfl⟩

/-- C4: `calculate_price` multiplies seats by the tier's base rate (49,
89, 49, 199, 199 for the five known tiers), uses rate 49 for every
unknown tier, and yields the three end-to-end example prices. -/
theorem calculate_price_rates (seats : Nat) :
    calculate_price "Fresh Start" seats = seats * 49
  ∧ calculate_price "Practice Plus" seats = seats * 89
  ∧ calculate_price "Community Access" seats = seats * 49
  ∧ calculate_price "Enterprise Care (Public Health)" seats = seats * 199
  ∧ calculate_price "Enterprise Access (Insurance & EAS)" seats = seats * 199
  ∧ (∀ tier : String, tier ∉ ["Fresh Start", "Practice Plus", "Community Access",
      "Enterprise Care (Public Health)", "Enterprise Access (Insurance & EAS)"] →
      calculate_price tier seats = seats * 49)
  ∧ calculate_price "Enterprise Access (Insurance & EAS)" 20 = 3980
  ∧ calculate_price "Fresh Start" 4 = 196
  ∧ calculate_price "Practice Plus" 8 = 712 := by
  refine ⟨rfl, rfl, rfl, rfl, rfl, ?_, rfl, rfl, rfl⟩
  intro tier h
  simp only [List.mem_cons, List.not_mem_nil, or_false, not_or] at h
  have e1 : (tier == "Fresh Start") = false := beq_eq_false_iff_ne.mpr h.1
  have e2 : (tier == "Practice Plus") = false := beq_eq_false_iff_ne.mpr h.2.1
  have e3 : (tier == "Community Access") = false := beq_eq_false_iff_ne.mpr h.2.2.1
  have e4 : (tier == "Enterprise Care (Public Health)") = false :=
    beq_eq_false_iff_ne.mpr h.2.2.2.1
  have e5 : (tier == "Enterprise Access (Insurance & EAS)") = false :=
    beq_eq_false_iff_ne.mpr h.2.2.2.2
  simp [calculate_price, pricing, List.lookup, e1, e2, e3, e4, e5]

/-- Witness for C4 at seats 3 and the unknown tier "Custom". -/
theorem calculate_price_rates_witness :
    calculate_price "Fresh Start" 3 = 3 * 49 ∧ calculate_price "Custom" 3 = 3 * 49 :=
  ⟨(calculate_price_rates 3).1,
   (calculate_price_rates 3).2.2.2.2.2.1 "Custom" (by decide)⟩

/-- C5: `get_features` returns the exact ordered feature list of each of
the five known tiers and the empty list for every other string. -/
theorem get_features_table_exact :
    get_features "Fresh Start" =
      ["Basic self-guided tools", "AI self-assessment", "1 group session/month",
       "1 report template"]
  ∧ get_features "Practice Plus" =
      ["Full AI suite", "Group modules", "2 sessions/month", "Custom reports",
       "Provider dashboard"]
  ∧ get_features "Community Access" =
      ["Multilingual AI tools", "Scalable group support", "Onboarding support",
       "Usage dashboard", "Volume discounts for 500+ users"]
  ∧ get_features "Enterprise Care (Public Health)" =
      ["Full AI triage", "Post-session care", "Real-time analytics", "API access",
       "Client monitoring & support",
       "Unlimited video, audio, and text-based monitoring tools"]
  ∧ get_features "Enterprise Access (Insurance & EAS)" =
      ["API integration", "Branded self-assessments", "Usage analytics",
       "Employer group modules", "Outcome dashboards", "Unlimited monitoring tools"]
  ∧ (∀ tier : String, tier ∉ ["Fresh Start", "Practice Plus", "Community Access",
      "Enterprise Care (Public Health)", "Enterprise Access (Insurance & EAS)"] →
      get_features tier = []) := by
  refine ⟨rfl, rfl, rfl, rfl, rfl, ?_⟩
  intro tier h
  simp only [List.mem_cons, List.not_mem_nil, or_false, not_or] at h
  have e1 : (tier == "Fresh Start") = false := beq_eq_false_iff_ne.mpr h.1
  have e2 : (tier == "Practice Plus") = false := beq_eq_false_iff_ne.mpr h.2.1
  have e3 : (tier == "Community Access") = false := beq_eq_false_iff_ne.mpr h.2.2.1
  have e4 : (tier == "Enterprise Care (Public Health)") = false :=
    beq_eq_false_iff_ne.mpr h.2.2.2.1
  have e5 : (tier == "Enterprise Access (Insurance & EAS)") = false :=
    beq_eq_false_iff_ne.mpr h.2.2.2.2
  simp [get_features, features_table, List.lookup, e1, e2, e3, e4, e5]

/-- Witness for C5 at the unknown tier "Custom". -/
theorem get_features_table_exact_witness :
    get_features "Fresh Start" =
      ["Basic self-guided tools", "AI self-assessment", "1 group session/month",
       "1 report template"]
  ∧ get_features "Custom" = [] :=
  ⟨get_features_table_exact.1, get_features_table_exact.2.2.2.2.2 "Custom" (by decide)⟩

/-- C7: `determine_recommendation` never consults `client_volume`: two
inputs differing only there give identical results. -/
theorem determine_recommendation_ignores_client_volume
    (org_type team_size cv1 cv2 : String)
    (specializations services : List String) :
    determine_recommendation org_type team_size cv1 specializations services =
    determine_recommendation org_type team_size cv2 specializations services := rfl

/-- C8: `determine_recommendation` is total: every well-typed input
reaches a return, always producing one of the function's eight literal
(tier, seats) results. -/
theorem determine_recommendation_total
    (org_type team_size client_volume : String)
    (specializations services : List String) :
    determine_recommendation org_type team_size client_volume specializations
      services ∈
      [("Enterprise Access (Insurance & EAS)", 20), ("Fresh Start", 4),
       ("Practice Plus", 8), ("Community Access", 16),
       ("Enterprise Care (Public Health)", 20), ("Practice Plus", 6),
       ("Community Access", 20), ("Community Access", 10)] := by
  unfold determine_recommendation
  repeat' split
  all_goals decide

/-- C9: every tier `determine_recommendation` produces is one of the five
keys known to both the pricing and the features table, its seat count
lies in {4, 6, 8, 10, 16, 20}, the pricing lookup never falls back to the
default, and the feature list is never empty. -/
theorem determine_recommendation_output_invariant
    (org_type team_size client_volume : String)
    (specializations services : List String) :
    (determine_recommendation org_type team_size client_volume specializations
      services).1 ∈
      ["Fresh Start", "Practice Plus", "Community Access",
       "Enterprise Care (Public Health)", "Enterprise Access (Insurance & EAS)"]
  ∧ (determine_recommendation org_type team_size client_volume specializations
      services).2 ∈ [4, 6, 8, 10, 16, 20]
  ∧ (pricing.lookup (determine_recommendation org_type team_size client_volume
      specializations services).1).isSome = true
  ∧ (features_table.lookup (determine_recommendation org_type team_size
      client_volume specializations services).1).isSome = true
  ∧ get_features (determine_recommendation org_type team_size client_volume
      specializations services).1 ≠ [] := by
  unfold determine_recommendation
  repeat' split
  all_goals decide

/-- C10: validation is Python truthiness only: whenever the three
required fields are non-empty strings — whitespace included — the handler
returns the full success body; a whitespace-only org_type then falls
through to the fallback rule (Community Access, 10). -/
theorem get_recommendation_truthy (data : RecommendationRequest)
    (h1 : data.org_type ≠ "") (h2 : data.team_size ≠ "")
    (h3 : data.client_volume ≠ "") :
    get_recommendation data = .ok
      { recommended_package := (determine_recommendation data.org_type
          data.team_size data.client_volume data.specializations data.services).1,
        recommended_seats := (determine_recommendation data.org_type
          data.team_size data.client_volume data.specializations data.services).2,
        estimated_pricing := "$" ++ toString (calculate_price
          (determine_recommendation data.org_type data.team_size
            data.client_volume data.specializations data.services).1
          (determine_recommendation data.org_type data.team_size
            data.client_volume data.specializations data.services).2),
        key_features := get_features (determine_recommendation data.org_type
          data.team_size data.client_volume data.specializations data.services).1,
        next_steps := generate_streamlit_url
          (determine_recommendation data.org_type data.team_size
            data.client_volume data.specializations data.services).1
          (determine_recommendation data.org_type data.team_size
            data.client_volume data.specializations data.services).2,
        sales_message := generate_sales_message
          (determine_recommendation data.org_type data.team_size
            data.client_volume data.specializations data.services).1
          (determine_recommendation data.org_type data.team_size
            data.client_volume data.specializations data.services).2
          (calculate_price
            (determine_recommendation data.org_type data.team_size
              data.client_volume data.specializations data.services).1
            (determine_recommendation data.org_type data.team_size
              data.client_volume data.specializations data.services).2) data }
  ∧ determine_recommendation " " " " " " [] [] = ("Community Access", 10) := by
  refine ⟨?_, by decide⟩
  unfold get_recommendation get_recommendation_try
  rw [if_neg (by simp [h1, h2, h3])]

/-- Witness for C10 at the all-whitespace request. -/
theorem get_recommendation_truthy_witness :
    get_recommendation
      { org_type := " ", team_size := " ", team_roles := [],
        client_volume := " ", services := [], specializations := [] } = .ok
      { recommended_package := (determine_recommendation " " " " " " [] []).1,
        recommended_seats := (determine_recommendation " " " " " " [] []).2,
        estimated_pricing := "$" ++ toString (calculate_price
          (determine_recommendation " " " " " " [] []).1
          (determine_recommendation " " " " " " [] []).2),
        key_features := get_features (determine_recommendation " " " " " " [] []).1,
        next_steps := generate_streamlit_url
          (determine_recommendation " " " " " " [] []).1
          (determine_recommendation " " " " " " [] []).2,
        sales_message := generate_sales_message
          (determine_recommendation " " " " " " [] []).1
          (determine_recommendation " " " " " " [] []).2
          (calculate_price (determine_recommendation " " " " " " [] []).1
            (determine_recommendation " " " " " " [] []).2)
          { org_type := " ", team_size := " ", team_roles := [],
            client_volume := " ", services := [], specializations := [] } }
  ∧ determine_recommendation " " " " " " [] [] = ("Community Access", 10) :=
  get_recommendation_truthy
    { org_type := " ", team_size := " ", team_roles := [],
      client_volume := " ", services := [], specializations := [] }
    (by decide) (by decide) (by decide)

end Cogni
namespace Cogni

theorem char_toNat_valid (c : Char) :
    c.toNat < 0xd800 ∨ (0xdfff < c.toNat ∧ c.toNat < 0x110000) := c.valid

theorem toNat_ofNat_of_valid {n : Nat} (h : n.isValidChar) :
    (Char.ofNat n).toNat = n := by
  unfold Char.ofNat
  rw [dif_pos h]
  rfl

theorem toNat_ofNat_of_lt {n : Nat} (h : n < 0xd800) :
    (Char.ofNat n).toNat = n :=
  toNat_ofNat_of_valid (Or.inl h)

theorem hexUpper_toNat {n : Nat} (h : n < 16) :
    (hexUpper n).toNat = if n < 10 then 0x30 + n else 0x37 + n := by
  unfold hexUpper
  split <;> rw [toNat_ofNat_of_lt (by omega)]

theorem hexVal_hexUpper {n : Nat} (h : n < 16) :
    hexVal (hexUpper n) = some n := by
  unfold hexVal
  rw [hexUpper_toNat h]
  by_cases h10 : n < 10
  · simp only [h10, if_true]
    rw [if_pos (by omega)]
    congr 1
    omega
  · simp only [h10, if_false]
    rw [if_neg (by omega), if_pos (by omega)]
    congr 1
    omega

theorem IsQuoteSafe.lt {b : Nat} (h : IsQuoteSafe b) : b < 0x80 := by
  unfold IsQuoteSafe at h
  omega

theorem IsQuoteSafe.ne_37 {b : Nat} (h : IsQuoteSafe b) : b ≠ 37 := by
  unfold IsQuoteSafe at h
  omega

theorem pctHead_safe (c : Char) (rest : List Char) (h : c ≠ '%') :
    pctHead (c :: rest) = some (c.toNat, rest) := by
  simp [pctHead, h]

theorem pctHead_escape {hc lc : Char} (rest : List Char) {a b : Nat}
    (h1 : hexVal hc = some a) (h2 : hexVal lc = some b) :
    pctHead ('%' :: hc :: lc :: rest) = some (a * 16 + b, rest) := by
  simp [pctHead, h1, h2]

theorem ofNat_ne_percent {b : Nat} (hlt : b < 0x80) (hne : b ≠ 37) :
    Char.ofNat b ≠ '%' := by
  intro he
  have h2 := congrArg Char.toNat he
  rw [toNat_ofNat_of_lt (by omega)] at h2
  exact hne (by simpa using h2)

theorem pctDecodeLoop_quoteChars (bs : List Nat) :
    ∀ fuel : Nat, (∀ b ∈ bs, b < 256) → (quoteChars bs).length ≤ fuel →
    pctDecodeLoop fuel (quoteChars bs) = some bs := by
  induction bs with
  | nil => intro fuel _ _; simp [quoteChars, pctDecodeLoop]
  | cons b bs ih =>
    intro fuel hb hf
    have hb0 : b < 256 := hb b (List.mem_cons_self b bs)
    have hbs : ∀ x ∈ bs, x < 256 := fun x hx => hb x (List.mem_cons_of_mem b hx)
    rw [quoteChars, List.flatMap_cons, ← quoteChars] at hf ⊢
    rw [List.length_append] at hf
    by_cases hs : IsQuoteSafe b
    · rw [quoteByte, if_pos hs] at hf ⊢
      rw [List.length_singleton] at hf
      obtain ⟨f, rfl⟩ : ∃ f, fuel = f + 1 := ⟨fuel - 1, by omega⟩
      rw [List.singleton_append, pctDecodeLoop,
        pctHead_safe _ _ (ofNat_ne_percent (by have := hs.lt; omega) hs.ne_37),
        toNat_ofNat_of_lt (by have := hs.lt; omega)]
      show Option.map (fun bs => b :: bs) (pctDecodeLoop f (quoteChars bs)) =
        some (b :: bs)
      rw [ih f hbs (by omega)]
      rfl
    · rw [quoteByte, if_neg hs] at hf ⊢
      rw [List.length_cons, List.length_cons, List.length_singleton] at hf
      obtain ⟨f, rfl⟩ : ∃ f, fuel = f + 1 := ⟨fuel - 1, by omega⟩
      rw [List.cons_append, List.cons_append, List.cons_append, pctDecodeLoop,
        pctHead_escape _ (hexVal_hexUpper (by omega)) (hexVal_hexUpper (by omega))]
      have harith : b / 16 * 16 + b % 16 = b := by omega
      rw [harith]
      show Option.map (fun bs => b :: bs) (pctDecodeLoop f (quoteChars bs)) =
        some (b :: bs)
      rw [ih f hbs (by omega)]
      rfl

set_option maxRecDepth 10000 in
theorem utf8Head_encode (c : Char) (rest : List Nat) :
    utf8Head (utf8EncodeChar c ++ rest) = some (c.toNat, rest) := by
  have hv := char_toNat_valid c
  unfold utf8EncodeChar
  by_cases h1 : c.toNat < 0x80
  · rw [if_pos h1, List.singleton_append, utf8Head, if_pos h1]
  · rw [if_neg h1]
    by_cases h2 : c.toNat < 0x800
    · rw [if_pos h2, List.cons_append, List.cons_append, List.nil_append,
        utf8Head, if_neg (by omega), if_neg (by omega), if_pos (by omega),
        utf8Cont1, if_pos (by omega)]
      congr 2
      omega
    · rw [if_neg h2]
      by_cases h3 : c.toNat < 0x10000
      · rw [if_pos h3, List.cons_append, List.cons_append, List.cons_append,
          List.nil_append, utf8Head, if_neg (by omega), if_neg (by omega),
          if_neg (by omega), if_pos (by omega),
          utf8Cont2, if_pos (by omega), utf8Cont1, if_pos (by omega)]
        congr 2
        omega
      · rw [if_neg h3, List.cons_append, List.cons_append, List.cons_append,
          List.cons_append, List.nil_append, utf8Head, if_neg (by omega),
          if_neg (by omega), if_neg (by omega), if_neg (by omega),
          if_pos (by omega),
          utf8Cont3, if_pos (by omega), utf8Cont2, if_pos (by omega),
          utf8Cont1, if_pos (by omega)]
        congr 2
        omega

theorem utf8EncodeChar_ne_nil (c : Char) : utf8EncodeChar c ≠ [] := by
  simp only [utf8EncodeChar]
  split
  · simp
  · split
    · simp
    · split <;> simp

theorem utf8EncodeChar_lt_256 (c : Char) : ∀ b ∈ utf8EncodeChar c, b < 256 := by
  have hv := char_toNat_valid c
  simp only [utf8EncodeChar]
  split
  · intro b hb
    simp only [List.mem_singleton] at hb
    omega
  · split
    · intro b hb
      simp only [List.mem_cons, List.not_mem_nil, or_false] at hb
      rcases hb with rfl | rfl <;> omega
    · split
      · intro b hb
        simp only [List.mem_cons, List.not_mem_nil, or_false] at hb
        rcases hb with rfl | rfl | rfl <;> omega
      · intro b hb
        simp only [List.mem_cons, List.not_mem_nil, or_false] at hb
        rcases hb with rfl | rfl | rfl | rfl <;> omega

theorem strBytes_lt_256 (s : String) : ∀ b ∈ strBytes s, b < 256 := by
  intro b hb
  rw [strBytes, List.mem_flatMap] at hb
  obtain ⟨c, _, hbc⟩ := hb
  exact utf8EncodeChar_lt_256 c b hbc

theorem utf8DecodeLoop_encode (cs : List Char) :
    ∀ fuel : Nat, (cs.flatMap utf8EncodeChar).length ≤ fuel →
    utf8DecodeLoop fuel (cs.flatMap utf8EncodeChar) = some cs := by
  induction cs with
  | nil => intro fuel _; simp [utf8DecodeLoop]
  | cons c cs ih =>
    intro fuel hf
    rw [List.flatMap_cons] at hf ⊢
    obtain ⟨b0, tl, he⟩ := List.exists_cons_of_ne_nil (utf8EncodeChar_ne_nil c)
    have hlen : 0 < (utf8EncodeChar c).length := by
      rw [he]; simp
    rw [List.length_append] at hf
    obtain ⟨f, rfl⟩ : ∃ f, fuel = f + 1 := ⟨fuel - 1, by omega⟩
    rw [he, List.cons_append, utf8DecodeLoop, ← List.cons_append, ← he,
      utf8Head_encode c (cs.flatMap utf8EncodeChar)]
    show Option.map (fun l => Char.ofNat c.toNat :: l)
      (utf8DecodeLoop f (cs.flatMap utf8EncodeChar)) = some (c :: cs)
    rw [ih f (by omega), Char.ofNat_toNat]
    rfl

theorem string_mk_data (s : String) : String.mk s.data = s := rfl

theorem quote_pct_roundtrip (s : String) : pctDecodeString (quote s) = some s := by
  show (pctDecodeBytes (quoteChars (strBytes s))).bind
    (fun bs => (utf8DecodeChars bs).map String.mk) = some s
  rw [pctDecodeBytes, pctDecodeLoop_quoteChars (strBytes s) _ (strBytes_lt_256 s)
    (Nat.le_refl _)]
  show (utf8DecodeChars (strBytes s)).map String.mk = some s
  rw [utf8DecodeChars, strBytes, utf8DecodeLoop_encode s.data _ (Nat.le_refl _)]
  rfl

end Cogni
namespace Cogni

theorem splitOnSep_not_mem {sep : Char} {l : List Char} (h : sep ∉ l) :
    splitOnSep sep l = [l] := by
  induction l with
  | nil => rfl
  | cons c cs ih =>
    simp only [List.mem_cons, not_or] at h
    rw [splitOnSep, if_neg (fun e => h.1 e.symm), ih (by exact h.2)]

theorem splitOnSep_append {sep : Char} {a : List Char} (b : List Char)
    (h : sep ∉ a) :
    splitOnSep sep (a ++ sep :: b) = a :: splitOnSep sep b := by
  induction a with
  | nil => rw [List.nil_append, splitOnSep, if_pos rfl]
  | cons c cs ih =>
    simp only [List.mem_cons, not_or] at h
    rw [List.cons_append, splitOnSep, if_neg (fun e => h.1 e.symm),
      ih (by exact h.2)]

theorem takeWhile_until_sep {k v : List Char} (h : '=' ∉ k) :
    (k ++ '=' :: v).takeWhile (fun c => c != '=') = k := by
  induction k with
  | nil => simp [List.takeWhile_cons]
  | cons c cs ih =>
    simp only [List.mem_cons, not_or] at h
    rw [List.cons_append, List.takeWhile_cons,
      if_pos (by simp only [bne_iff_ne, ne_eq]; exact fun e => h.1 e.symm),
      ih (by exact h.2)]

theorem dropWhile_until_sep {k v : List Char} (h : '=' ∉ k) :
    (k ++ '=' :: v).dropWhile (fun c => c != '=') = '=' :: v := by
  induction k with
  | nil => simp [List.dropWhile_cons]
  | cons c cs ih =>
    simp only [List.mem_cons, not_or] at h
    rw [List.cons_append, List.dropWhile_cons,
      if_pos (by simp only [bne_iff_ne, ne_eq]; exact fun e => h.1 e.symm)]
    exact ih (by exact h.2)

theorem keyValOf_build {k v : List Char} (h : '=' ∉ k) :
    keyValOf (k ++ '=' :: v) = (k, v) := by
  rw [keyValOf, takeWhile_until_sep h, dropWhile_until_sep h]
  simp

end Cogni
namespace Cogni

theorem char_ne_of_toNat_ne {c d : Char} (h : c.toNat ≠ d.toNat) : c ≠ d :=
  fun e => h (congrArg Char.toNat e)

theorem quoteChars_no_sep {bs : List Nat} (hb : ∀ b ∈ bs, b < 256) :
    ∀ c ∈ quoteChars bs, c ≠ '?' ∧ c ≠ '&' ∧ c ≠ '=' := by
  intro c hc
  rw [quoteChars, List.mem_flatMap] at hc
  obtain ⟨b, hbm, hcb⟩ := hc
  have hb0 := hb b hbm
  have q1 : ('?').toNat = 63 := rfl
  have q2 : ('&').toNat = 38 := rfl
  have q3 : ('=').toNat = 61 := rfl
  rw [quoteByte] at hcb
  split at hcb
  case isTrue hs =>
    simp only [List.mem_singleton] at hcb
    subst hcb
    have ht : (Char.ofNat b).toNat = b :=
      toNat_ofNat_of_lt (by have := hs.lt; omega)
    unfold IsQuoteSafe at hs
    refine ⟨char_ne_of_toNat_ne ?_, char_ne_of_toNat_ne ?_,
      char_ne_of_toNat_ne ?_⟩ <;> rw [ht]
    · rw [q1]; omega
    · rw [q2]; omega
    · rw [q3]; omega
  case isFalse hs =>
    have h16a : b / 16 < 16 := by omega
    have h16b : b % 16 < 16 := by omega
    simp only [List.mem_cons, List.not_mem_nil, or_false] at hcb
    rcases hcb with rfl | rfl | rfl
    · exact ⟨by decide, by decide, by decide⟩
    · refine ⟨char_ne_of_toNat_ne ?_, char_ne_of_toNat_ne ?_,
        char_ne_of_toNat_ne ?_⟩ <;> rw [hexUpper_toNat h16a]
      · rw [q1]; split <;> omega
      · rw [q2]; split <;> omega
      · rw [q3]; split <;> omega
    · refine ⟨char_ne_of_toNat_ne ?_, char_ne_of_toNat_ne ?_,
        char_ne_of_toNat_ne ?_⟩ <;> rw [hexUpper_toNat h16b]
      · rw [q1]; split <;> omega
      · rw [q2]; split <;> omega
      · rw [q3]; split <;> omega

theorem queryParse_three (pre k1 v1 k2 v2 k3 v3 : List Char)
    (hpre : '?' ∉ pre)
    (hk1 : '&' ∉ k1 ∧ '=' ∉ k1 ∧ '?' ∉ k1)
    (hk2 : '&' ∉ k2 ∧ '=' ∉ k2 ∧ '?' ∉ k2)
    (hk3 : '&' ∉ k3 ∧ '=' ∉ k3 ∧ '?' ∉ k3)
    (hv1 : '&' ∉ v1 ∧ '?' ∉ v1)
    (hv2 : '&' ∉ v2 ∧ '?' ∉ v2)
    (hv3 : '&' ∉ v3 ∧ '?' ∉ v3) :
    (splitOnSep '&' (queryStringOf (pre ++ '?' ::
        ((k1 ++ '=' :: v1) ++ '&' :: ((k2 ++ '=' :: v2) ++ '&' ::
          (k3 ++ '=' :: v3)))))).map keyValOf
      = [(k1, v1), (k2, v2), (k3, v3)] := by
  have hq : '?' ∉ (k1 ++ '=' :: v1) ++ '&' :: ((k2 ++ '=' :: v2) ++ '&' ::
      (k3 ++ '=' :: v3)) := by
    simp only [List.mem_append, List.mem_cons, not_or]
    exact ⟨⟨hk1.2.2, by decide, hv1.2⟩, by decide,
      ⟨⟨hk2.2.2, by decide, hv2.2⟩, by decide, ⟨hk3.2.2, by decide, hv3.2⟩⟩⟩
  rw [queryStringOf, splitOnSep_append _ hpre, splitOnSep_not_mem hq]
  show (splitOnSep '&' ((k1 ++ '=' :: v1) ++ '&' :: ((k2 ++ '=' :: v2) ++ '&' ::
    (k3 ++ '=' :: v3)))).map keyValOf = _
  have m1 : '&' ∉ k1 ++ '=' :: v1 := by
    simp only [List.mem_append, List.mem_cons, not_or]
    exact ⟨hk1.1, by decide, hv1.1⟩
  have m2 : '&' ∉ k2 ++ '=' :: v2 := by
    simp only [List.mem_append, List.mem_cons, not_or]
    exact ⟨hk2.1, by decide, hv2.1⟩
  have m3 : '&' ∉ k3 ++ '=' :: v3 := by
    simp only [List.mem_append, List.mem_cons, not_or]
    exact ⟨hk3.1, by decide, hv3.1⟩
  rw [splitOnSep_append _ m1, splitOnSep_append _ m2, splitOnSep_not_mem m3]
  rw [List.map_cons, List.map_cons, List.map_cons, List.map_nil,
    keyValOf_build hk1.2.1, keyValOf_build hk2.2.1, keyValOf_build hk3.2.1]

end Cogni
namespace Cogni

theorem lookup3_first {α β : Type} [BEq α] [LawfulBEq α] (a : α) (v1 : β)
    (k2 k3 : α) (v2 v3 : β) :
    ([(a, v1), (k2, v2), (k3, v3)]).lookup a = some v1 := by
  simp [List.lookup]

theorem lookup3_second {α β : Type} [BEq α] [LawfulBEq α] {a k1 : α} (v1 : β)
    (k3 : α) (v2 v3 : β) (h : (a == k1) = false) :
    ([(k1, v1), (a, v2), (k3, v3)]).lookup a = some v2 := by
  simp [List.lookup, h]

/-- C6: percent-decoding the `tier` and `seats` query-parameter values of
the URL built by `generate_streamlit_url` reproduces the original tier
string (spaces, ampersands, parentheses, and any other characters
included) and the seat count's decimal representation exactly. -/
theorem streamlit_url_roundtrip (package : String) (seats : Nat) :
    (getParamValue (generate_streamlit_url package seats) "tier").bind
      pctDecodeString = some package
  ∧ (getParamValue (generate_streamlit_url package seats) "seats").bind
      pctDecodeString = some (toString seats) := by
  have hurl : (generate_streamlit_url package seats).data
      = (base_url.data ++ ['/']) ++ '?' ::
        ((['t', 'i', 'e', 'r'] ++ '=' :: (quote package).data) ++ '&' ::
         ((['s', 'e', 'a', 't', 's'] ++ '=' :: (quote (toString seats)).data) ++
          '&' :: (['u', 't', 'm', '_', 's', 'o', 'u', 'r', 'c', 'e'] ++ '=' ::
            (quote "chatbot").data))) := by
    simp only [generate_streamlit_url, String.data_append, List.append_assoc,
      List.cons_append, List.nil_append]
  have hvp := quoteChars_no_sep (strBytes_lt_256 package)
  have hvs := quoteChars_no_sep (strBytes_lt_256 (toString seats))
  have hvc := quoteChars_no_sep (strBytes_lt_256 "chatbot")
  have hparse := queryParse_three (base_url.data ++ ['/'])
    ['t', 'i', 'e', 'r'] (quote package).data
    ['s', 'e', 'a', 't', 's'] (quote (toString seats)).data
    ['u', 't', 'm', '_', 's', 'o', 'u', 'r', 'c', 'e'] (quote "chatbot").data
    (by decide) (by decide) (by decide) (by decide)
    ⟨fun hm => (hvp '&' hm).2.1 rfl, fun hm => (hvp '?' hm).1 rfl⟩
    ⟨fun hm => (hvs '&' hm).2.1 rfl, fun hm => (hvs '?' hm).1 rfl⟩
    ⟨fun hm => (hvc '&' hm).2.1 rfl, fun hm => (hvc '?' hm).1 rfl⟩
  constructor
  · rw [getParamValue, hurl, hparse]
    have hk : "tier".data = ['t', 'i', 'e', 'r'] := rfl
    rw [hk, lookup3_first]
    show pctDecodeString (quote package) = some package
    exact quote_pct_roundtrip package
  · rw [getParamValue, hurl, hparse]
    have hk : "seats".data = ['s', 'e', 'a', 't', 's'] := rfl
    rw [hk, lookup3_second _ _ _ _ (by decide)]
    show pctDecodeString (quote (toString seats)) = some (toString seats)
    exact quote_pct_roundtrip (toString seats)

end Cogni
